import Mathlib

/-!
Verification of the hallucination-detection pipeline of the
Research-Paper-QA-Summary repository, shallowly embedded in Lean.

Strings are modelled as lists of characters (`Chars`).  Python floats are
modelled as rationals (`ℚ`); every constant the code compares against
(0.7, 0.5, 0.4, 0.3, 0.2, 0.8, 0.6) is written as an exact rational.
External LLM oracles (claim extraction, NLI verdicts, answer regeneration)
and the stdlib `difflib.SequenceMatcher.ratio` are modelled as explicit
parameters, since the pipeline only consumes their results.
-/

abbrev Chars := List Char

/-- Python `str.lower()` restricted to the ASCII range, as used by the
detector on citation strings, reference values and chunk contents. -/
def lowerL (s : Chars) : Chars := s.map Char.toLower

/-- Python regex `\s` character class (ASCII): space, tab, newline,
carriage return, vertical tab, form feed. -/
def pySpace (c : Char) : Bool :=
  c = ' ' || c = '\t' || c = '\n' || c = '\r' || c = '\x0b' || c = '\x0c'

/-- Python `in` on strings: `substrB needle hay` holds when `needle`
occurs as a contiguous substring of `hay`. -/
def substrB (needle : Chars) : Chars → Bool
  | [] => needle.isEmpty
  | c :: rest => needle.isPrefixOf (c :: rest) || substrB needle rest

/-- Python regex `\w` (ASCII): letters, digits, underscore. -/
def wordChar (c : Char) : Bool := c.isAlphanum || c = '_'

def isWordOpt : Option Char → Bool
  | none => false
  | some c => wordChar c

/-- A `\b` word boundary sits between two (possibly absent) characters
exactly when one side is a word character and the other is not. -/
def boundaryB (a b : Option Char) : Bool := isWordOpt a != isWordOpt b

/-- One attempt of `re.search(rf'\b{re.escape(ref)}\b', ...)` at a fixed
position: `ref` must be a literal prefix of the suffix `s`, with word
boundaries against the previous character and the character after the
match.  Caller passes both sides already lower-cased (IGNORECASE). -/
def matchWordAt (ref : Chars) (prev : Option Char) (s : Chars) : Bool :=
  ref.isPrefixOf s && boundaryB prev s.head? &&
    boundaryB ref.getLast? ((s.drop ref.length).head?)

def wwAux (ref : Chars) : Option Char → Chars → Bool
  | prev, [] => matchWordAt ref prev []
  | prev, c :: rest => matchWordAt ref prev (c :: rest) || wwAux ref (some c) rest

/-- `re.search(rf'\b{re.escape(ref)}\b', text, re.IGNORECASE)` as a
Boolean: some position of `text` carries a whole-word occurrence of the
literal `ref`.  Both arguments are expected lower-cased. -/
def wholeWordSearch (ref text : Chars) : Bool := wwAux ref none text

/-- Greedy `\d+` : the leading run of digits and the remaining suffix. -/
def takeDigits (cs : Chars) : Chars × Chars :=
  (cs.takeWhile Char.isDigit, cs.dropWhile Char.isDigit)

/-- Greedy `(?:\.\d+)*` with fuel; each iteration consumes a period and
at least one digit, so fuel equal to the input length suffices. -/
def takeDottedFuel : Nat → Chars → Chars × Chars
  | 0, cs => ([], cs)
  | fuel + 1, cs =>
    match cs with
    | '.' :: r =>
      let ds := r.takeWhile Char.isDigit
      if ds = [] then ([], cs)
      else
        let out := takeDottedFuel fuel (r.dropWhile Char.isDigit)
        ('.' :: ds ++ out.1, out.2)
    | _ => ([], cs)

/-- The capture `\d+(?:\.\d+)*` of the section and figure patterns:
returns the captured value and the rest, or `none` if no digit starts. -/
def parseDotted (cs : Chars) : Option (Chars × Chars) :=
  let ds := cs.takeWhile Char.isDigit
  if ds = [] then none
  else
    let r := cs.dropWhile Char.isDigit
    let out := takeDottedFuel r.length r
    some (ds ++ out.1, out.2)

/-- Greedy optional `(?:\s*[–-]\s*\d+)?` of the page pattern: either the
full range tail parses, or nothing is consumed (regex backtracking of
the optional group). -/
def takeRange (cs : Chars) : Chars × Chars :=
  let sp1 := cs.takeWhile pySpace
  let r1 := cs.dropWhile pySpace
  match r1 with
  | d :: r2 =>
    if d = '–' || d = '-' then
      let sp2 := r2.takeWhile pySpace
      let r3 := r2.dropWhile pySpace
      let ds := r3.takeWhile Char.isDigit
      if ds = [] then ([], cs)
      else (sp1 ++ d :: sp2 ++ ds, r3.dropWhile Char.isDigit)
    else ([], cs)
  | [] => ([], cs)

/-- The capture `\d+(?:\s*[–-]\s*\d+)?` of the page pattern. -/
def parsePageValue (cs : Chars) : Option (Chars × Chars) :=
  let ds := cs.takeWhile Char.isDigit
  if ds = [] then none
  else
    let r := cs.dropWhile Char.isDigit
    let out := takeRange r
    some (ds ++ out.1, out.2)

/-- One keyword alternative followed by `\s*` and the value capture.
On success returns (group 0, group 1, remaining suffix).  The `\s*` and
the value are greedy and deterministic: whitespace characters are never
digits, so shrinking `\s*` cannot rescue a failed `\d+`. -/
def tryKeyword1 (k : Chars) (valp : Chars → Option (Chars × Chars)) (cs : Chars) :
    Option (Chars × Chars × Chars) :=
  if k.isPrefixOf cs then
    match valp ((cs.drop k.length).dropWhile pySpace) with
    | some (v, r2) => some (k ++ (cs.drop k.length).takeWhile pySpace ++ v, v, r2)
    | none => none
  else none

/-- Regex alternation: alternatives are tried in order at a fixed
position, backtracking into the next alternative when the continuation
(whitespace + value) fails. -/
def tryKeywords (kws : List Chars) (valp : Chars → Option (Chars × Chars))
    (cs : Chars) : Option (Chars × Chars × Chars) :=
  match kws with
  | [] => none
  | k :: ks =>
    match tryKeyword1 k valp cs with
    | some r => some r
    | none => tryKeywords ks valp cs

/-- One `re.Match`: start position, `group(0)` and `group(1)`.  The
matching is performed on the lower-cased haystack; `group(0).lower()`
and `group(1)` (digits, periods, dashes, whitespace only) of the
original string coincide with the lower-cased slices recorded here. -/
structure RMatch where
  pos : Nat
  group0 : Chars
  group1 : Chars
deriving DecidableEq, Repr

/-- `re.finditer`: scan left to right; on a match continue after it
(matches here are never empty: every keyword is non-empty), otherwise
advance one character.  Fuel equal to the input length suffices. -/
def finditerAux (kws : List Chars) (valp : Chars → Option (Chars × Chars)) :
    Nat → Nat → Chars → List RMatch
  | 0, _, _ => []
  | _ + 1, _, [] => []
  | fuel + 1, off, c :: rest =>
    match tryKeywords kws valp (c :: rest) with
    | some (g0, g1, r) => ⟨off, g0, g1⟩ :: finditerAux kws valp fuel (off + g0.length) r
    | none => finditerAux kws valp fuel (off + 1) rest

def finditer (kws : List Chars) (valp : Chars → Option (Chars × Chars))
    (cs : Chars) : List RMatch :=
  finditerAux kws valp cs.length 0 cs

/-- Alternatives of `(?:section|sec\.?|§)`, in regex preference order:
`sec\.?` greedily tries "sec." before "sec". -/
def sectionKeywords : List Chars :=
  ["section".data, "sec.".data, "sec".data, "§".data]

/-- Alternatives of `(?:p\.|pp\.|page)`. -/
def pageKeywords : List Chars := ["p.".data, "pp.".data, "page".data]

/-- Alternatives of `(?:fig\.|figure|table|tbl\.)`. -/
def figureKeywords : List Chars :=
  ["fig.".data, "figure".data, "table".data, "tbl.".data]

/-- `all_matches = list(section_matches) + list(page_matches) +
list(figure_matches)`, each `finditer` run over the lower-cased
citations text (IGNORECASE). -/
def allMatches (lowCitations : Chars) : List RMatch :=
  finditer sectionKeywords parseDotted lowCitations
    ++ finditer pageKeywords parsePageValue lowCitations
    ++ finditer figureKeywords parseDotted lowCitations

/-- A retrieved chunk as consumed by the detector: only its `content`
field is read (`chunk.get("content", "")`); `metadata` and
`relevance_score` are never inspected by the verification pipeline. -/
structure Chunk where
  content : Chars
deriving DecidableEq, Repr

/-- The slice of the LangGraph `PaperState` mapping that the three
verification checks read.  Absent keys read through `state.get(k, d)`
are modelled by their defaults (empty string / empty list). -/
structure PaperState where
  question : Chars
  raw_text : Chars
  answer : Chars
  citations : Chars
  retrieved_chunks : List Chunk
deriving DecidableEq, Repr

/-- One entry of `verification_results`. -/
structure VerifiedRef where
  reference : Chars
  found : Bool
  confidence : Chars
  type : Chars
deriving DecidableEq, Repr

/-- The five placeholder phrases of the `citation_present` test. -/
def placeholdersL : List Chars :=
  ["not provided".data, "none".data, "no citations".data,
   "no relevant sections".data, "not explicitly stated in paper".data]

/-- `bool(citations and citations.lower() not in [<placeholders>])`. -/
def citationPresent (citations : Chars) : Bool :=
  !citations.isEmpty && !(decide (lowerL citations ∈ placeholdersL))

/-- The per-reference found/confidence computation: the whole-word
source-text search sets (found, "medium"); the chunk loop then
overrides to (found, "high") and breaks at the first chunk whose
lower-cased content contains the value — the loop runs regardless of
the source-text outcome, so `List.any` reproduces it. -/
def checkRef (text : Chars) (chunks : List Chunk) (ref : Chars) : Bool × Chars :=
  let inChunk := chunks.any
    (fun ch => !ref.isEmpty && substrB (lowerL ref) (lowerL ch.content))
  let inText := !ref.isEmpty && wholeWordSearch (lowerL ref) (lowerL text)
  if inChunk then (true, "high".data)
  else if inText then (true, "medium".data)
  else (false, "low".data)

/-- `group(0).split('.')[0].lower() if '.' in group(0) else
group(0).lower()` — the text before the first period of the whole
match, or the whole match (already lower-cased here). -/
def refTypeOf (g0 : Chars) : Chars :=
  if '.' ∈ g0 then g0.takeWhile (fun c => c ≠ '.') else g0

def mkVerifiedRef (text : Chars) (chunks : List Chunk) (m : RMatch) : VerifiedRef :=
  let t := refTypeOf m.group0
  let fc := checkRef text chunks m.group1
  { reference := t ++ ' ' :: m.group1, found := fc.1, confidence := fc.2, type := t }

/-- Result of `verify_citations` (the returned `hallucination_check`
dict; the threaded `metadata` copy is omitted, no claim reads it). -/
structure HallucinationCheck where
  score : ℚ
  verified_citations : List VerifiedRef
  citation_present : Bool
  status : Chars
deriving DecidableEq, Repr

/-- The `verification_results` list built by `verify_citations`. -/
def vcResults (st : PaperState) : List VerifiedRef :=
  (allMatches (lowerL st.citations)).map
    (mkVerifiedRef st.raw_text st.retrieved_chunks)

/-- `hallucination_score` before the citation-absence penalty: 0 when no
references were extracted, otherwise `unfound_count / len(results)`. -/
def vcScore0 (st : PaperState) : ℚ :=
  if vcResults st = [] then 0
  else (((vcResults st).filter (fun r => !r.found)).length : ℚ)
    / ((vcResults st).length : ℚ)

/-- `hallucination_score` after the citation-absence penalty:
`max(score, 0.7)` when no citation is present and an answer exists. -/
def vcScore (st : PaperState) : ℚ :=
  if !citationPresent st.citations && !st.answer.isEmpty
  then max (vcScore0 st) (7 / 10) else vcScore0 st

/-- `HallucinationDetector.verify_citations`. -/
def verify_citations (st : PaperState) : HallucinationCheck :=
  { score := vcScore st
    verified_citations := vcResults st
    citation_present := citationPresent st.citations
    status :=
      if vcScore st > 1 / 2 then "high_risk".data
      else if vcScore st > 1 / 5 then "medium_risk".data
      else "low_risk".data }

/-- Result of `verify_claims_with_nli`.  The success payload carries
the (claim, verdict, explanation) triples the oracles produced; the
skipped and failed dicts carry no `hallucination_score` key. -/
inductive LlmVerification where
  | skipped
  | failed
  | success (verifications : List (Chars × Chars × Chars))
      (supported total : Nat) (score : ℚ)
deriving DecidableEq, Repr

/-- `HallucinationDetector.verify_claims_with_nli`.  The claim
extraction chain and the per-claim NLI chain are external LLM calls,
modelled by `oracle`: `none` when any call raises (the except branch),
`some vs` for the produced (claim, verdict, explanation) list. -/
def verify_claims_with_nli (oracle : Option (List (Chars × Chars × Chars)))
    (st : PaperState) : LlmVerification :=
  if st.answer = [] ∨ st.retrieved_chunks = [] then .skipped
  else
    match oracle with
    | none => .failed
    | some vs =>
      let supported := (vs.filter (fun v => v.2.1 = "SUPPORTED".data)).length
      let score : ℚ :=
        if vs ≠ [] then 1 - (supported : ℚ) / (vs.length : ℚ) else 1 / 2
      .success vs supported vs.length score

/-- `llm_check.get("llm_verification", {}).get("hallucination_score", 0.5)`:
the key exists only on the success path; skipped/failed read 0.5. -/
def llmScoreOf : LlmVerification → ℚ
  | .success _ _ _ s => s
  | _ => 1 / 2

/-- Result of `cross_check_answer` (the `consistency_check` dict;
length/diagnostic fields omitted, no claim reads them). -/
structure ConsistencyCheck where
  average_similarity : ℚ
  status : Chars
deriving DecidableEq, Repr

/-- All pairs i < j of a list, in loop order. -/
def pairsOf : List Chars → List (Chars × Chars)
  | [] => []
  | a :: rest => rest.map (fun b => (a, b)) ++ pairsOf rest

def consistencyStatusOf (avg : ℚ) : Chars :=
  if avg > 4 / 5 then "highly_consistent".data
  else if avg > 3 / 5 then "moderately_consistent".data
  else if avg > 2 / 5 then "low_consistency".data
  else "inconsistent".data

/-- `[a for a in answers if a and len(a) > 10]` over original answer and
the two regenerated variants. -/
def validAnswers (orig v1 v2 : Chars) : List Chars :=
  [orig, v1, v2].filter (fun a => !a.isEmpty && decide (10 < a.length))

/-- `avg_similarity`: mean of the pairwise lower-cased similarity ratios
(0 if the pair list is empty, which cannot occur for ≥ 2 answers). -/
def avgSimilarity (simOf : Chars → Chars → ℚ) (valid : List Chars) : ℚ :=
  let sims := (pairsOf valid).map (fun p => simOf (lowerL p.1) (lowerL p.2))
  if sims ≠ [] then sims.sum / (sims.length : ℚ) else 0

/-- `HallucinationDetector.cross_check_answer`.  The two regeneration
calls are external LLM calls modelled by `regen` (`none` when either
raises, `some (var1, var2)` for the two produced answers);
`difflib.SequenceMatcher(None, a, b).ratio()` is the stdlib similarity,
modelled by the function parameter `simOf`. -/
def cross_check_answer (regen : Option (Chars × Chars))
    (simOf : Chars → Chars → ℚ) (st : PaperState) : ConsistencyCheck :=
  if st.answer = [] ∨ st.retrieved_chunks = [] then ⟨0, "skipped".data⟩
  else
    match regen with
    | none => ⟨0, "error".data⟩
    | some (v1, v2) =>
      if (validAnswers st.answer v1 v2).length < 2 then ⟨0, "insufficient_data".data⟩
      else ⟨avgSimilarity simOf (validAnswers st.answer v1 v2),
        consistencyStatusOf (avgSimilarity simOf (validAnswers st.answer v1 v2))⟩

/-- The fields of `core.config.Settings` consumed by the verification
pipeline and its validators; remaining fields (model names, URLs,
chunking sizes, directories) are never read by the pipeline. -/
structure Settings where
  OPENAI_API_KEY : Chars
  DATABASE_URL : Chars
  PINECONE_API_KEY : Chars
  CITATION_SCORE : ℚ
  LLM_SCORE : ℚ
  CONSISTENCY_SCORE : ℚ
deriving DecidableEq, Repr

/-- Field validator `validate_openai_key`. -/
def validate_openai_key (v : Chars) : Except Chars Chars :=
  if v = [] then .error ("OpenAI API key is required".data)
  else if !("sk-".data).isPrefixOf v then
    .error ("OpenAI API key must start with sk-".data)
  else if v.length < 20 then
    .error ("OpenAI API key must be at least 20 characters long".data)
  else .ok v

/-- Field validator `validate_database_url`. -/
def validate_database_url (v : Chars) : Except Chars Chars :=
  if v = [] then .ok v
  else if ("postgresql://".data).isPrefixOf v
      || ("postgresql+asyncpg://".data).isPrefixOf v then .ok v
  else .error ("DATABASE_URL must start with postgresql".data)

/-- Field validator `validate_pinecone_key`. -/
def validate_pinecone_key (v : Chars) : Except Chars Chars :=
  if v = [] then .ok v
  else if v.length < 20 then
    .error ("PINECONE_API_KEY appears to be invalid".data)
  else .ok v

/-- Pydantic construction of `Settings`: the three field validators run
in declaration order, the first failure raising; the
hallucination-detection weight fields have no validator anywhere in the
model and are stored as given. -/
def mkSettings (openai db pinecone : Chars) (wc wl wk : ℚ) : Except Chars Settings :=
  match validate_openai_key openai with
  | .error e => .error e
  | .ok o =>
    match validate_database_url db with
    | .error e => .error e
    | .ok d =>
      match validate_pinecone_key pinecone with
      | .error e => .error e
      | .ok p => .ok ⟨o, d, p, wc, wl, wk⟩

/-- Whether a pydantic construction succeeded. -/
def exceptOk {ε α : Type} : Except ε α → Bool
  | .ok _ => true
  | .error _ => false

/-- The declared defaults of the three weight fields
(`CITATION_SCORE = 0.4`, `LLM_SCORE = 0.4`, `CONSISTENCY_SCORE = 0.2`). -/
def defaultWeights : ℚ × ℚ × ℚ := (2 / 5, 2 / 5, 1 / 5)

/-- Result of `comprehensive_check` (the
`comprehensive_hallucination_check` dict; metadata copy omitted). -/
structure ComprehensiveCheck where
  overall_score : ℚ
  overall_risk : Chars
  citation_score : ℚ
  llm_score : ℚ
  consistency_score : ℚ
  citation_details : HallucinationCheck
  llm_details : LlmVerification
  consistency_details : ConsistencyCheck
deriving DecidableEq, Repr

/-- The risk-tier thresholds applied to the final score. -/
def riskOf (s : ℚ) : Chars :=
  if s > 7 / 10 then "CRITICAL".data
  else if s > 1 / 2 then "HIGH".data
  else if s > 3 / 10 then "MEDIUM".data
  else "LOW".data

/-- `HallucinationDetector.comprehensive_check`: runs the three checks
and combines them with the configured weights. -/
def comprehensive_check (cfg : Settings)
    (nli : Option (List (Chars × Chars × Chars)))
    (regen : Option (Chars × Chars)) (simOf : Chars → Chars → ℚ)
    (st : PaperState) : ComprehensiveCheck :=
  let cc := verify_citations st
  let lc := verify_claims_with_nli nli st
  let kc := cross_check_answer regen simOf st
  let citation_score := cc.score
  let llm_score := llmScoreOf lc
  let consistency_score := 1 - kc.average_similarity
  let final := citation_score * cfg.CITATION_SCORE + llm_score * cfg.LLM_SCORE
    + consistency_score * cfg.CONSISTENCY_SCORE
  { overall_score := final
    overall_risk := riskOf final
    citation_score := citation_score
    llm_score := llm_score
    consistency_score := consistency_score
    citation_details := cc
    llm_details := lc
    consistency_details := kc }

/-- `QAAgent.generate_answer` on a state whose `retrieved_chunks` list
is empty: the early-return branch producing the canned answer and the
canned citations string. -/
def generate_answer_no_context : Chars × Chars :=
  ("Could not find relevant information in the paper.".data,
   "No relevant sections found".data)

/-- A configuration value with the default weights 0.4 / 0.4 / 0.2. -/
def exampleSettings : Settings :=
  ⟨"sk-aaaaaaaaaaaaaaaaaaaaa".data, [], [], 2 / 5, 2 / 5, 1 / 5⟩

/-- State with a produced answer but no retrieved chunks and an empty
citations string. -/
def c1state : PaperState := ⟨[], [], "answer".data, [], []⟩

/-- State with empty answer, empty citations, no retrieved chunks. -/
def c2state : PaperState := ⟨[], [], [], [], []⟩

/-- State whose citations string is the placeholder "None". -/
def c4state : PaperState := ⟨[], [], "hi".data, "None".data, []⟩

/-- State citing "section 2" while neither the source text nor any
chunk contains a 2. -/
def c5state : PaperState := ⟨[], "hello".data, "x".data, "section 2".data, []⟩

/-- State whose citations mention a page before a section. -/
def c7state : PaperState := ⟨[], [], [], "page 3, section 2".data, []⟩

/-- State with the single citation "Section 2". -/
def c8state : PaperState := ⟨[], [], [], "Section 2".data, []⟩

/-- State where the cited value 2 occurs in a retrieved chunk but not
in the source text. -/
def c9state : PaperState :=
  ⟨[], "hello".data, "x".data, "section 2".data, [⟨"value 2 appears".data⟩]⟩

/-- A syntactically valid OpenAI key for configuration tests. -/
def c6key : Chars := "sk-aaaaaaaaaaaaaaaaaaaaa".data

theorem placeholders_noMatches : ∀ p ∈ placeholdersL, allMatches p = [] := by
  decide

theorem citationPresent_true_of_results (st : PaperState)
    (h : vcResults st ≠ []) : citationPresent st.citations = true := by
  have hcit : st.citations ≠ [] := by
    intro he
    apply h
    unfold vcResults
    rw [he]
    rfl
  have hnotin : lowerL st.citations ∉ placeholdersL := by
    intro hin
    apply h
    unfold vcResults
    rw [placeholders_noMatches _ hin]
    rfl
  unfold citationPresent
  simp [hcit, hnotin]

theorem vcScore_of_no_matches (st : PaperState)
    (h : allMatches (lowerL st.citations) = [])
    (hp : citationPresent st.citations = true) :
    (verify_citations st).score = 0 := by
  have hres : vcResults st = [] := by
    unfold vcResults
    rw [h]
    rfl
  show vcScore st = 0
  unfold vcScore
  rw [hp]
  simp [vcScore0, hres]

theorem tryKeyword1_g0 (k : Chars) (valp : Chars → Option (Chars × Chars))
    (cs g0 g1 r : Chars) (h : tryKeyword1 k valp cs = some (g0, g1, r)) :
    ∃ sp v, g0 = k ++ sp ++ v := by
  unfold tryKeyword1 at h
  split at h
  · split at h
    · simp only [Option.some.injEq, Prod.mk.injEq] at h
      exact ⟨_, _, h.1.symm⟩
    · exact absurd h (by simp)
  · exact absurd h (by simp)

theorem tryKeywords_g0_ne (kws : List Chars) (valp : Chars → Option (Chars × Chars))
    (cs g0 g1 r : Chars) (hk : ∀ k ∈ kws, k ≠ ([] : Chars))
    (h : tryKeywords kws valp cs = some (g0, g1, r)) : g0 ≠ [] := by
  induction kws with
  | nil => simp [tryKeywords] at h
  | cons k ks ih =>
    unfold tryKeywords at h
    cases htk : tryKeyword1 k valp cs with
    | none =>
      rw [htk] at h
      exact ih (fun k' hk' => hk k' (List.mem_cons_of_mem _ hk')) h
    | some res =>
      rw [htk] at h
      have hres : res = (g0, g1, r) := by simpa using h
      subst hres
      obtain ⟨sp, v, hg0⟩ := tryKeyword1_g0 k valp cs g0 g1 r htk
      intro hnil
      rw [hg0] at hnil
      rcases List.append_eq_nil.1 hnil with ⟨h1, -⟩
      rcases List.append_eq_nil.1 h1 with ⟨h2, -⟩
      exact hk k (List.mem_cons_self _ _) h2

theorem finditerAux_pos_le (kws : List Chars) (valp : Chars → Option (Chars × Chars)) :
    ∀ fuel off cs, ∀ m ∈ finditerAux kws valp fuel off cs, off ≤ m.pos := by
  intro fuel
  induction fuel with
  | zero => intro off cs m hm; simp [finditerAux] at hm
  | succ n ih =>
    intro off cs m hm
    cases cs with
    | nil => simp [finditerAux] at hm
    | cons c rest =>
      unfold finditerAux at hm
      cases htk : tryKeywords kws valp (c :: rest) with
      | none =>
        rw [htk] at hm
        exact le_trans (Nat.le_succ off) (ih (off + 1) rest m hm)
      | some t =>
        obtain ⟨g0, g1, r⟩ := t
        rw [htk] at hm
        rcases List.mem_cons.1 hm with hh | hh
        · rw [hh]
        · exact le_trans (Nat.le_add_right off g0.length) (ih _ r m hh)

theorem finditerAux_chain (kws : List Chars) (valp : Chars → Option (Chars × Chars))
    (hk : ∀ k ∈ kws, k ≠ ([] : Chars)) :
    ∀ fuel off cs,
      List.Chain' (fun a b : RMatch => a.pos < b.pos) (finditerAux kws valp fuel off cs) := by
  intro fuel
  induction fuel with
  | zero => intro off cs; simp [finditerAux]
  | succ n ih =>
    intro off cs
    cases cs with
    | nil => simp [finditerAux]
    | cons c rest =>
      unfold finditerAux
      cases htk : tryKeywords kws valp (c :: rest) with
      | none => exact ih (off + 1) rest
      | some t =>
        obtain ⟨g0, g1, r⟩ := t
        refine List.chain'_cons'.2 ⟨?_, ih (off + g0.length) r⟩
        intro b hb
        have hble := finditerAux_pos_le kws valp n (off + g0.length) r b
          (List.mem_of_mem_head? hb)
        have hg0 : g0 ≠ [] := tryKeywords_g0_ne kws valp (c :: rest) g0 g1 r hk htk
        have hlen : 0 < g0.length := List.length_pos.2 hg0
        show off < b.pos
        omega

/-- Every `finditer` run returns its matches in strictly increasing
start-position order, provided no keyword alternative is empty. -/
theorem finditer_chain (kws : List Chars) (valp : Chars → Option (Chars × Chars))
    (hk : ∀ k ∈ kws, k ≠ ([] : Chars)) (cs : Chars) :
    List.Chain' (fun a b : RMatch => a.pos < b.pos) (finditer kws valp cs) :=
  finditerAux_chain kws valp hk cs.length 0 cs

theorem consistencyStatusOf_ne (avg : ℚ) :
    consistencyStatusOf avg ≠ "skipped".data
    ∧ consistencyStatusOf avg ≠ "error".data
    ∧ consistencyStatusOf avg ≠ "insufficient_data".data := by
  unfold consistencyStatusOf
  split_ifs <;> exact ⟨by decide, by decide, by decide⟩

theorem cross_check_cases (regen : Option (Chars × Chars))
    (simOf : Chars → Chars → ℚ) (st : PaperState) :
    cross_check_answer regen simOf st = ⟨0, "skipped".data⟩
    ∨ cross_check_answer regen simOf st = ⟨0, "error".data⟩
    ∨ cross_check_answer regen simOf st = ⟨0, "insufficient_data".data⟩
    ∨ ∃ avg, cross_check_answer regen simOf st = ⟨avg, consistencyStatusOf avg⟩ := by
  unfold cross_check_answer
  split
  · exact Or.inl rfl
  · rcases regen with _ | ⟨v1, v2⟩
    · exact Or.inr (Or.inl rfl)
    · by_cases hlt : (validAnswers st.answer v1 v2).length < 2
      · exact Or.inr (Or.inr (Or.inl (by simp [hlt])))
      · refine Or.inr (Or.inr (Or.inr
          ⟨avgSimilarity simOf (validAnswers st.answer v1 v2), ?_⟩))
        simp [hlt]

theorem cross_check_zero_of_status (regen : Option (Chars × Chars))
    (simOf : Chars → Chars → ℚ) (st : PaperState)
    (h : (cross_check_answer regen simOf st).status = "skipped".data
      ∨ (cross_check_answer regen simOf st).status = "error".data
      ∨ (cross_check_answer regen simOf st).status = "insufficient_data".data) :
    (cross_check_answer regen simOf st).average_similarity = 0 := by
  rcases cross_check_cases regen simOf st with hc | hc | hc | ⟨avg, hc⟩ <;> rw [hc]
  rw [hc] at h
  rcases h with h | h | h
  · exact absurd h (consistencyStatusOf_ne avg).1
  · exact absurd h (consistencyStatusOf_ne avg).2.1
  · exact absurd h (consistencyStatusOf_ne avg).2.2

/-- C2 (counterexample): on the state with `answer=""`,
`retrieved_chunks=[]` and no citations, under the default weights the
code returns `overall_score = 0.4`, which is not the claimed `0.5`. -/
theorem C2_counterexample :
    (comprehensive_check exampleSettings none none (fun _ _ => 0) c2state).overall_score
      = 2 / 5
    ∧ ¬((2 : ℚ) / 5 = 1 / 2) := by
  constructor
  · have e : (comprehensive_check exampleSettings none none (fun _ _ => 0)
        c2state).overall_score
      = (0 : ℚ) * (2 / 5) + (1 / 2) * (2 / 5) + (1 - 0) * (1 / 5) := rfl
    rw [e]
    norm_num
  · norm_num

/-- C2 (amended): on the missing-answer state the citation check scores
0 (not a neutral 0.5: no references and no penalty since no answer),
the NLI check is skipped (read back as 0.5), and the consistency check
is skipped with similarity 0, contributing 1 - 0 = 1; the total under
default weights is 0·0.4 + 0.5·0.4 + 1·0.2 = 0.4, not 0.5. -/
theorem C2_amended (q rt o d p : Chars)
    (nli : Option (List (Chars × Chars × Chars))) (regen : Option (Chars × Chars))
    (simOf : Chars → Chars → ℚ) :
    (comprehensive_check ⟨o, d, p, 2 / 5, 2 / 5, 1 / 5⟩ nli regen simOf
      ⟨q, rt, [], [], []⟩).citation_score = 0
    ∧ (comprehensive_check ⟨o, d, p, 2 / 5, 2 / 5, 1 / 5⟩ nli regen simOf
      ⟨q, rt, [], [], []⟩).llm_details = LlmVerification.skipped
    ∧ (comprehensive_check ⟨o, d, p, 2 / 5, 2 / 5, 1 / 5⟩ nli regen simOf
      ⟨q, rt, [], [], []⟩).consistency_details = ⟨0, "skipped".data⟩
    ∧ (comprehensive_check ⟨o, d, p, 2 / 5, 2 / 5, 1 / 5⟩ nli regen simOf
      ⟨q, rt, [], [], []⟩).overall_score = 2 / 5 := by
  refine ⟨rfl, rfl, rfl, ?_⟩
  have e : (comprehensive_check ⟨o, d, p, 2 / 5, 2 / 5, 1 / 5⟩ nli regen simOf
      ⟨q, rt, [], [], []⟩).overall_score
    = (0 : ℚ) * (2 / 5) + (1 / 2) * (2 / 5) + (1 - 0) * (1 / 5) := rfl
  rw [e]
  norm_num

/-- C3: the risk tier is the fixed strict-threshold discretization of
the final score: >0.7 CRITICAL, >0.5 HIGH, >0.3 MEDIUM, else LOW; the
boundary values 0.7, 0.5, 0.3 fall in the lower tier. -/
theorem C3_thm (cfg : Settings) (nli : Option (List (Chars × Chars × Chars)))
    (regen : Option (Chars × Chars)) (simOf : Chars → Chars → ℚ) (st : PaperState) :
    (comprehensive_check cfg nli regen simOf st).overall_risk
      = riskOf (comprehensive_check cfg nli regen simOf st).overall_score
    ∧ (∀ s : ℚ, 7 / 10 < s → riskOf s = "CRITICAL".data)
    ∧ (∀ s : ℚ, s ≤ 7 / 10 → 1 / 2 < s → riskOf s = "HIGH".data)
    ∧ (∀ s : ℚ, s ≤ 1 / 2 → 3 / 10 < s → riskOf s = "MEDIUM".data)
    ∧ (∀ s : ℚ, s ≤ 3 / 10 → riskOf s = "LOW".data)
    ∧ riskOf (7 / 10) = "HIGH".data
    ∧ riskOf (1 / 2) = "MEDIUM".data
    ∧ riskOf (3 / 10) = "LOW".data := by
  refine ⟨rfl, ?_, ?_, ?_, ?_, by norm_num [riskOf], by norm_num [riskOf],
    by norm_num [riskOf]⟩
  · intro s h
    unfold riskOf
    rw [if_pos h]
  · intro s h1 h2
    unfold riskOf
    rw [if_neg (not_lt.2 h1), if_pos h2]
  · intro s h1 h2
    unfold riskOf
    rw [if_neg (not_lt.2 (le_trans h1 (by norm_num))), if_neg (not_lt.2 h1), if_pos h2]
  · intro s h1
    unfold riskOf
    rw [if_neg (not_lt.2 (le_trans h1 (by norm_num))),
      if_neg (not_lt.2 (le_trans h1 (by norm_num))), if_neg (not_lt.2 h1)]

/-- C3 (witness): the boundary 0.7 maps to HIGH and 0.8 to CRITICAL. -/
theorem C3_witness :
    riskOf (7 / 10) = "HIGH".data ∧ riskOf (4 / 5) = "CRITICAL".data :=
  ⟨(C3_thm exampleSettings none none (fun _ _ => 0) c2state).2.2.2.2.2.1,
    (C3_thm exampleSettings none none (fun _ _ => 0) c2state).2.1 (4 / 5) (by norm_num)⟩

/-- C4: when the citations string is empty or a (case-insensitive)
placeholder phrase and an answer was produced, the citation score is
forced to at least 0.7, whatever the reference matching produced. -/
theorem C4_thm (st : PaperState)
    (h1 : st.citations = [] ∨ lowerL st.citations ∈ placeholdersL)
    (h2 : st.answer ≠ []) :
    7 / 10 ≤ (verify_citations st).score := by
  have hpres : citationPresent st.citations = false := by
    unfold citationPresent
    rcases h1 with h | h
    · simp [h]
    · simp [h]
  have hans : st.answer.isEmpty = false := by
    cases hst : st.answer
    · exact absurd hst h2
    · rfl
  show 7 / 10 ≤ vcScore st
  unfold vcScore
  rw [hpres, hans]
  simp

/-- C4 (witness): the placeholder "None" with the answer "hi". -/
theorem C4_witness :
    (c4state.citations = [] ∨ lowerL c4state.citations ∈ placeholdersL)
    ∧ c4state.answer ≠ []
    ∧ 7 / 10 ≤ (verify_citations c4state).score :=
  ⟨Or.inr (by decide), by decide, C4_thm c4state (Or.inr (by decide)) (by decide)⟩

/-- C5: with at least one extracted reference the citation score is the
fraction of references not found (the absence penalty cannot fire,
since extraction from an empty or placeholder citations string is
impossible); with no references and no applicable penalty it is 0. -/
theorem C5_thm (st : PaperState) :
    (0 < (verify_citations st).verified_citations.length →
      (verify_citations st).score =
        ((((verify_citations st).verified_citations.filter (fun r => !r.found)).length : ℚ))
          / (((verify_citations st).verified_citations.length : ℚ)))
    ∧ ((verify_citations st).verified_citations = [] →
      ((verify_citations st).citation_present = true ∨ st.answer = []) →
      (verify_citations st).score = 0) := by
  constructor
  · intro h
    have hres : vcResults st ≠ [] := by
      intro he
      have h' : 0 < (vcResults st).length := h
      rw [he] at h'
      simp at h'
    have hpres := citationPresent_true_of_results st hres
    show vcScore st
      = (((vcResults st).filter (fun r => !r.found)).length : ℚ) / ((vcResults st).length : ℚ)
    unfold vcScore
    rw [hpres]
    simp only [Bool.not_true, Bool.false_and, Bool.false_eq_true, if_false]
    unfold vcScore0
    rw [if_neg hres]
  · intro he hp
    have hres : vcResults st = [] := he
    have h0 : vcScore0 st = 0 := by
      unfold vcScore0
      rw [if_pos hres]
    show vcScore st = 0
    unfold vcScore
    rcases hp with hp | hp
    · have hpres : citationPresent st.citations = true := hp
      simp [hpres, h0]
    · have hans : st.answer.isEmpty = true := by
        rw [hp]
        rfl
      simp [hans, h0]

/-- C5 (witness): the single unfound reference of c5state gives score
1/1 = 1. -/
theorem C5_witness :
    0 < (verify_citations c5state).verified_citations.length
    ∧ (verify_citations c5state).score =
      ((((verify_citations c5state).verified_citations.filter (fun r => !r.found)).length : ℚ))
        / (((verify_citations c5state).verified_citations.length : ℚ)) :=
  ⟨by decide, (C5_thm c5state).1 (by decide)⟩

/-- C1 (counterexample): on a state with an answer but no retrieved
chunks, the consistency check reports status "skipped" with similarity
0, and the aggregator charges 1 - 0 = 1 (not the neutral 0.5) times its
weight: the total is 0.68, not the 0.58 the claimed 0.5-substitution
would give. -/
theorem C1_counterexample :
    (comprehensive_check exampleSettings none none (fun _ _ => 0)
      c1state).consistency_details.status = "skipped".data
    ∧ (comprehensive_check exampleSettings none none (fun _ _ => 0)
      c1state).citation_score = 7 / 10
    ∧ (comprehensive_check exampleSettings none none (fun _ _ => 0)
      c1state).llm_score = 1 / 2
    ∧ (comprehensive_check exampleSettings none none (fun _ _ => 0)
      c1state).consistency_score = 1
    ∧ (comprehensive_check exampleSettings none none (fun _ _ => 0)
      c1state).overall_score = 17 / 25
    ∧ ((7 : ℚ) / 10 * (2 / 5) + 1 / 2 * (2 / 5) + 1 / 2 * (1 / 5) = 29 / 50)
    ∧ ¬((17 : ℚ) / 25 = 29 / 50) := by
  refine ⟨rfl, ?_, rfl, ?_, ?_, by norm_num, by norm_num⟩
  · have e : (comprehensive_check exampleSettings none none (fun _ _ => 0)
        c1state).citation_score = max (0 : ℚ) (7 / 10) := rfl
    rw [e, max_def]
    norm_num
  · have e : (comprehensive_check exampleSettings none none (fun _ _ => 0)
        c1state).consistency_score = (1 : ℚ) - 0 := rfl
    rw [e]
    norm_num
  · have e : (comprehensive_check exampleSettings none none (fun _ _ => 0)
        c1state).overall_score
      = max (0 : ℚ) (7 / 10) * (2 / 5) + (1 / 2) * (2 / 5) + (1 - 0) * (1 / 5) := rfl
    rw [e, max_def]
    norm_num

/-- C1 (amended): when the consistency checker reports skipped, error
or insufficient_data, its similarity is 0 and its contribution to the
weighted sum is the full consistency weight (factor 1, the worst case),
while the skipped/failed NLI check does contribute the neutral 0.5. -/
theorem C1_amended (cfg : Settings) (nli : Option (List (Chars × Chars × Chars)))
    (regen : Option (Chars × Chars)) (simOf : Chars → Chars → ℚ) (st : PaperState)
    (h : (cross_check_answer regen simOf st).status = "skipped".data
      ∨ (cross_check_answer regen simOf st).status = "error".data
      ∨ (cross_check_answer regen simOf st).status = "insufficient_data".data) :
    (comprehensive_check cfg nli regen simOf st).consistency_score = 1
    ∧ (comprehensive_check cfg nli regen simOf st).overall_score
      = (verify_citations st).score * cfg.CITATION_SCORE
        + llmScoreOf (verify_claims_with_nli nli st) * cfg.LLM_SCORE
        + cfg.CONSISTENCY_SCORE
    ∧ llmScoreOf LlmVerification.skipped = 1 / 2
    ∧ llmScoreOf LlmVerification.failed = 1 / 2 := by
  have h0 := cross_check_zero_of_status regen simOf st h
  refine ⟨?_, ?_, rfl, rfl⟩
  · show 1 - (cross_check_answer regen simOf st).average_similarity = 1
    rw [h0]
    ring
  · show (verify_citations st).score * cfg.CITATION_SCORE
      + llmScoreOf (verify_claims_with_nli nli st) * cfg.LLM_SCORE
      + (1 - (cross_check_answer regen simOf st).average_similarity)
        * cfg.CONSISTENCY_SCORE = _
    rw [h0]
    ring

/-- C1 (witness): the skipped consistency check of c1state contributes
factor 1. -/
theorem C1_amended_witness :
    (cross_check_answer none (fun _ _ => 0) c1state).status = "skipped".data
    ∧ (comprehensive_check exampleSettings none none (fun _ _ => 0)
      c1state).consistency_score = 1 :=
  ⟨by decide, (C1_amended exampleSettings none none (fun _ _ => 0) c1state
    (Or.inl (by decide))).1⟩

/-- C6 (counterexample): constructing the configuration with weights
0.5/0.5/0.5 (summing to 1.5) succeeds — no ConfigurationError — and the
accepted weights are more than 1e-9 away from summing to 1. -/
theorem C6_counterexample :
    mkSettings c6key [] [] (1 / 2) (1 / 2) (1 / 2)
      = Except.ok ⟨c6key, [], [], 1 / 2, 1 / 2, 1 / 2⟩
    ∧ ¬(|((1 : ℚ) / 2 + 1 / 2 + 1 / 2) - 1| ≤ 1 / 1000000000) := by
  constructor
  · rfl
  · rw [abs_le]
    norm_num

/-- C6 (amended): configuration-time validation never inspects the
weight fields — acceptance is unchanged under any replacement of the
weights, and accepted settings store the weights exactly as given; only
the declared defaults 0.4/0.4/0.2 happen to sum to 1. -/
theorem C6_amended :
    (∀ o d p wc wl wk wc' wl' wk',
      exceptOk (mkSettings o d p wc wl wk) = exceptOk (mkSettings o d p wc' wl' wk'))
    ∧ (∀ o d p wc wl wk s, mkSettings o d p wc wl wk = Except.ok s →
      s.CITATION_SCORE = wc ∧ s.LLM_SCORE = wl ∧ s.CONSISTENCY_SCORE = wk)
    ∧ defaultWeights.1 + defaultWeights.2.1 + defaultWeights.2.2 = 1 := by
  refine ⟨?_, ?_, by norm_num [defaultWeights]⟩
  · intro o d p wc wl wk wc' wl' wk'
    unfold mkSettings
    cases validate_openai_key o with
    | error e => rfl
    | ok o' =>
      cases validate_database_url d with
      | error e => rfl
      | ok d' =>
        cases validate_pinecone_key p with
        | error e => rfl
        | ok p' => rfl
  · intro o d p wc wl wk s h
    unfold mkSettings at h
    cases ho : validate_openai_key o with
    | error e => rw [ho] at h; simp at h
    | ok o' =>
      rw [ho] at h
      cases hd : validate_database_url d with
      | error e => rw [hd] at h; simp at h
      | ok d' =>
        rw [hd] at h
        cases hp : validate_pinecone_key p with
        | error e => rw [hp] at h; simp at h
        | ok p' =>
          rw [hp] at h
          simp only [Except.ok.injEq] at h
          rw [← h]
          exact ⟨rfl, rfl, rfl⟩

/-- C6 (witness): the accepted 0.5/0.5/0.5 settings store those
weights unchanged. -/
theorem C6_amended_witness :
    Settings.CITATION_SCORE ⟨c6key, [], [], 1 / 2, 1 / 2, 1 / 2⟩ = 1 / 2
    ∧ Settings.LLM_SCORE ⟨c6key, [], [], 1 / 2, 1 / 2, 1 / 2⟩ = 1 / 2
    ∧ Settings.CONSISTENCY_SCORE ⟨c6key, [], [], 1 / 2, 1 / 2, 1 / 2⟩ = 1 / 2 :=
  C6_amended.2.1 c6key [] [] (1 / 2) (1 / 2) (1 / 2)
    ⟨c6key, [], [], 1 / 2, 1 / 2, 1 / 2⟩ rfl

/-- C7 (counterexample): for the citations text "page 3, section 2" the
page reference occurs first in the text (the text starts with "page",
match position 0, against position 8 for the section match), yet the
returned reference list places the section reference first: matches are
grouped by pattern class, not by text position. -/
theorem C7_counterexample :
    (verify_citations c7state).verified_citations.map VerifiedRef.type
      = ["section 2".data, "page 3".data]
    ∧ (allMatches (lowerL c7state.citations)).map RMatch.pos = [8, 0]
    ∧ ¬ List.Chain' (fun a b : Nat => a ≤ b)
      ((allMatches (lowerL c7state.citations)).map RMatch.pos)
    ∧ ("page".data).isPrefixOf c7state.citations = true := by
  refine ⟨by decide, by decide, ?_, by decide⟩
  rw [show (allMatches (lowerL c7state.citations)).map RMatch.pos = [8, 0] from
    by decide]
  simp [List.chain'_cons]

/-- C7 (amended): the verified-reference list is the concatenation of
the three pattern classes — all section matches, then all page matches,
then all figure/table matches — and only within each class do the
matches appear in strictly increasing text-position order. -/
theorem C7_amended :
    (∀ st : PaperState,
      (verify_citations st).verified_citations
        = (finditer sectionKeywords parseDotted (lowerL st.citations)).map
            (mkVerifiedRef st.raw_text st.retrieved_chunks)
          ++ (finditer pageKeywords parsePageValue (lowerL st.citations)).map
            (mkVerifiedRef st.raw_text st.retrieved_chunks)
          ++ (finditer figureKeywords parseDotted (lowerL st.citations)).map
            (mkVerifiedRef st.raw_text st.retrieved_chunks))
    ∧ (∀ cs : Chars,
      List.Chain' (fun a b : RMatch => a.pos < b.pos)
        (finditer sectionKeywords parseDotted cs)
      ∧ List.Chain' (fun a b : RMatch => a.pos < b.pos)
        (finditer pageKeywords parsePageValue cs)
      ∧ List.Chain' (fun a b : RMatch => a.pos < b.pos)
        (finditer figureKeywords parseDotted cs)) := by
  constructor
  · intro st
    show vcResults st = _
    unfold vcResults allMatches
    rw [List.map_append, List.map_append]
  · intro cs
    exact ⟨finditer_chain _ _ (by decide) cs, finditer_chain _ _ (by decide) cs,
      finditer_chain _ _ (by decide) cs⟩

/-- C8 (counterexample): for the citation "Section 2" the recorded
reference type is the full lower-cased match "section 2" — it contains
the numeric value and is not the bare keyword "section". -/
theorem C8_counterexample :
    (verify_citations c8state).verified_citations.map VerifiedRef.type
      = ["section 2".data]
    ∧ "section 2".data ≠ "section".data := by
  exact ⟨by decide, by decide⟩

/-- C8 (amended): the recorded type of every verified reference is the
whole lower-cased match when it contains no period, and the part before
the first period otherwise; so "Section 2" yields "section 2",
"sec. 3" yields "sec", and "Section 2.1" yields "section 2". -/
theorem C8_amended :
    (∀ st : PaperState, ∀ r ∈ (verify_citations st).verified_citations,
      ∃ m ∈ allMatches (lowerL st.citations),
        r.type = refTypeOf m.group0
        ∧ refTypeOf m.group0
          = (if '.' ∈ m.group0 then m.group0.takeWhile (fun c => c ≠ '.') else m.group0))
    ∧ (allMatches (lowerL "Section 2".data)).map (fun m => refTypeOf m.group0)
      = ["section 2".data]
    ∧ (allMatches (lowerL "sec. 3".data)).map (fun m => refTypeOf m.group0)
      = ["sec".data]
    ∧ (allMatches (lowerL "Section 2.1".data)).map (fun m => refTypeOf m.group0)
      = ["section 2".data] := by
  refine ⟨?_, by decide, by decide, by decide⟩
  intro st r hr
  have hr' : r ∈ (allMatches (lowerL st.citations)).map
      (mkVerifiedRef st.raw_text st.retrieved_chunks) := hr
  obtain ⟨m, hm, hmr⟩ := List.mem_map.1 hr'
  refine ⟨m, hm, ?_, rfl⟩
  rw [← hmr]
  rfl

/-- C8 (witness): the single reference of c8state carries type
"section 2", the recorded type of its match. -/
theorem C8_amended_witness :
    ∃ m ∈ allMatches (lowerL c8state.citations),
      (⟨"section 2 2".data, false, "low".data, "section 2".data⟩ : VerifiedRef).type
        = refTypeOf m.group0
      ∧ refTypeOf m.group0
        = (if '.' ∈ m.group0 then m.group0.takeWhile (fun c => c ≠ '.') else m.group0) :=
  C8_amended.1 c8state
    ⟨"section 2 2".data, false, "low".data, "section 2".data⟩ (by decide)

/-- C9 (counterexample): the reference value "2" of c9state occurs in a
retrieved chunk but not in the source text ("hello"), yet the code
marks it found with confidence "high" — high confidence does not
require the source-text match the claim describes. -/
theorem C9_counterexample :
    wholeWordSearch (lowerL "2".data) (lowerL c9state.raw_text) = false
    ∧ (verify_citations c9state).verified_citations
      = [⟨"section 2 2".data, true, "high".data, "section 2".data⟩] := by
  exact ⟨by decide, by decide⟩

/-- C9 (amended): for a non-empty reference value, the chunk substring
check is evaluated regardless of the source-text result and on success
yields (found, "high"); otherwise a whole-word source-text match yields
(found, "medium"); only when both fail is the reference unfound with
confidence "low". -/
theorem C9_amended (text : Chars) (chunks : List Chunk) (ref : Chars) (h : ref ≠ []) :
    (chunks.any (fun ch => !ref.isEmpty && substrB (lowerL ref) (lowerL ch.content)) = true →
      checkRef text chunks ref = (true, "high".data))
    ∧ (chunks.any (fun ch => !ref.isEmpty && substrB (lowerL ref) (lowerL ch.content)) = false →
      wholeWordSearch (lowerL ref) (lowerL text) = true →
      checkRef text chunks ref = (true, "medium".data))
    ∧ (chunks.any (fun ch => !ref.isEmpty && substrB (lowerL ref) (lowerL ch.content)) = false →
      wholeWordSearch (lowerL ref) (lowerL text) = false →
      checkRef text chunks ref = (false, "low".data)) := by
  have hne : ref.isEmpty = false := by
    cases hst : ref
    · exact absurd hst h
    · rfl
  refine ⟨?_, ?_, ?_⟩
  · intro h1
    unfold checkRef
    simp [h1]
  · intro h1 h2
    unfold checkRef
    simp only [hne, Bool.not_false, Bool.true_and] at h1 ⊢
    simp [h1, h2]
  · intro h1 h2
    unfold checkRef
    simp only [hne, Bool.not_false, Bool.true_and] at h1 ⊢
    simp [h1, h2]

/-- C9 (witness): value "2", chunk "value 2 appears", source "hello". -/
theorem C9_amended_witness :
    ([⟨"value 2 appears".data⟩] : List Chunk).any
      (fun ch => !("2".data).isEmpty && substrB (lowerL "2".data) (lowerL ch.content)) = true
    ∧ checkRef "hello".data [⟨"value 2 appears".data⟩] "2".data = (true, "high".data) :=
  ⟨by decide, (C9_amended "hello".data [⟨"value 2 appears".data⟩] "2".data
    (by decide)).1 (by decide)⟩

/-- C10: the canned citations string "No relevant sections found"
produced by answer generation when no chunks were retrieved is a strict
superstring of the placeholder "no relevant sections" but equal to none
of the five placeholders, so the equality-based presence flag is true,
no reference is extracted, and the score stays 0 — the 0.7
citation-absence floor is not applied. -/
theorem C10_thm :
    ("no relevant sections".data).isPrefixOf (lowerL generate_answer_no_context.2) = true
    ∧ lowerL generate_answer_no_context.2 ∉ placeholdersL
    ∧ (∀ q rt ans chunks,
      (verify_citations ⟨q, rt, ans, generate_answer_no_context.2,
        chunks⟩).citation_present = true
      ∧ (verify_citations ⟨q, rt, ans, generate_answer_no_context.2,
        chunks⟩).score = 0) := by
  refine ⟨by decide, by decide, ?_⟩
  intro q rt ans chunks
  constructor
  · show citationPresent generate_answer_no_context.2 = true
    decide
  · have h1 : allMatches (lowerL generate_answer_no_context.2) = [] := by decide
    have h2 : citationPresent generate_answer_no_context.2 = true := by decide
    exact vcScore_of_no_matches
      ⟨q, rt, ans, generate_answer_no_context.2, chunks⟩ h1 h2
